import Mathlib

/-!
# Verification of the market-data normalization and synthetic-series layer

Shallow embedding of the quote/time-series normalization, synthetic-series
generation, timeframe routing and fallback policy of the
`gringottstradingpitch` repository.  The definitions below are translated
from `src/server/routes.ts` (the Express route handlers backed by the
Yahoo Finance provider) and `src/client/src/components/StockChart.tsx`
(the client timeframe router).

Modelling conventions:
* JS numbers are modelled as `ℚ`; an optional provider field is `Option ℚ`.
* `Math.random()` and `Math.sin` are ambient effects in the source; they are
  modelled as explicit input streams (`rnd vrnd : ℕ → ℚ`, `osc : ℕ → ℚ`),
  following the repository's own design note that the random source should be
  injected.  Theorems that depend on their ranges hypothesize
  `0 ≤ rnd i < 1` (the range of `Math.random()`).
* Timestamp keys of the JSON time-series objects are modelled as integers
  (minutes since epoch for intraday keys, days since epoch for daily/weekly
  keys, and a (month index, day-of-month) pair for monthly keys).  The source
  renders these instants to ISO strings; distinct instants render to distinct
  strings, so entry counts are unchanged by this representation.
* A route handler's `try { ... } catch { ... }` is modelled by passing the
  provider results as `Except Unit _` and matching on them.
-/

namespace Gringotts

/-- JavaScript `x || d` applied to an optional number: `undefined` and `0` are
falsy, any other number is kept.  `routes.ts` uses this shape for every numeric
fallback, e.g. `quote.regularMarketPrice || 100`. -/
def jsOrNum (x : Option ℚ) (d : ℚ) : ℚ :=
  match x with
  | none => d
  | some v => if v = 0 then d else v

/-- JavaScript `x || d` applied to an optional string: `undefined` and the
empty string are falsy. -/
def jsOrStr (x : Option String) (d : String) : String :=
  match x with
  | none => d
  | some s => if s = "" then d else s

/-- Decimal rendering of a JS number, as used by `Number.prototype.toString`.
Every provider number a theorem below evaluates is an integer, and integers
render exactly as in JS (`(150).toString() = "150"`).  Non-integral rationals
render as `num/den`; no theorem evaluates that branch (JS shortest-round-trip
float rendering is not modelled). -/
def jsNumToString (q : ℚ) : String :=
  if q.den = 1 then toString q.num else toString q.num ++ "/" ++ toString q.den

/-- `x?.toString() || "0"`: an absent field yields `"0"`; a present number
yields its rendering (which is never the empty string, so `||` cannot fire on
a present field). -/
def optNumToString (x : Option ℚ) : String :=
  match x with
  | none => "0"
  | some v => jsNumToString v

/-- The provider quote shape (`yahooFinance.quote`) as consumed by
`routes.ts`: every numeric field may be absent. -/
structure YahooQuote where
  symbol : String
  regularMarketOpen : Option ℚ
  regularMarketDayHigh : Option ℚ
  regularMarketDayLow : Option ℚ
  regularMarketPrice : Option ℚ
  regularMarketVolume : Option ℚ
  regularMarketPreviousClose : Option ℚ
  regularMarketChange : Option ℚ
  regularMarketChangePercent : Option ℚ
  deriving DecidableEq

/-- The normalized `"Global Quote"` object (`routes.ts` lines 79-92).  Field
`gopen` is the value of key `"02. open"`, `ghigh` of `"03. high"`, and so on;
`glatestDay` is `"07. latest trading day"`. -/
structure GlobalQuote where
  gsymbol : String
  gopen : String
  ghigh : String
  glow : String
  gprice : String
  gvolume : String
  glatestDay : String
  gprevClose : String
  gchange : String
  gchangePercent : String
  deriving DecidableEq

/-- The quote route's `transformedData` (`routes.ts` lines 79-92).  `today`
stands for `new Date().toISOString().split('T')[0]`. -/
def transformQuote (q : YahooQuote) (today : String) : GlobalQuote :=
  { gsymbol := q.symbol
    gopen := optNumToString q.regularMarketOpen
    ghigh := optNumToString q.regularMarketDayHigh
    glow := optNumToString q.regularMarketDayLow
    gprice := optNumToString q.regularMarketPrice
    gvolume := optNumToString q.regularMarketVolume
    glatestDay := today
    gprevClose := optNumToString q.regularMarketPreviousClose
    gchange := optNumToString q.regularMarketChange
    gchangePercent := jsNumToString (jsOrNum q.regularMarketChangePercent 0 * 100) ++ "%" }

/-- `getEndpointAndInterval` from `StockChart.tsx` lines 23-42.  The TS switch
is over a runtime string; the `default` arm returns the 1D pair. -/
def getEndpointAndInterval (tf : String) : String × String :=
  if tf = "1D" then ("intraday", "5min")
  else if tf = "1W" then ("intraday", "60min")
  else if tf = "1M" then ("daily", "")
  else if tf = "3M" then ("daily", "")
  else if tf = "1Y" then ("weekly", "")
  else if tf = "5Y" then ("weekly", "")
  else if tf = "Max" then ("monthly", "")
  else ("intraday", "5min")

/-- The container key the client looks up in the response
(`StockChart.tsx` lines 59-70). -/
def clientSeriesKey (endpoint interval : String) : String :=
  if endpoint = "intraday" then "Time Series (" ++ interval ++ ")"
  else if endpoint = "daily" then "Time Series (Daily)"
  else if endpoint = "weekly" then "Weekly Time Series"
  else if endpoint = "monthly" then "Monthly Time Series"
  else ""

/-- The numeric value denoted by JS `x.toFixed(2)`: `x` rounded to two decimal
places.  JS rounds the underlying double; both roundings are monotone, which
is all the invariants below use. -/
def toFixed2 (x : ℚ) : ℚ := (round (x * 100) : ℚ) / 100

/-- A synthetic candle before serialization: `copen` is the number rendered
under `"1. open"`, `chigh` under `"2. high"`, `clow` under `"3. low"`,
`cclose` under `"4. close"`, `cvol` under `"5. volume"`. -/
structure Candle where
  copen : ℚ
  chigh : ℚ
  clow : ℚ
  cclose : ℚ
  cvol : ℤ
  deriving DecidableEq

/-- One candle of the intraday synthetic branch (`routes.ts` lines 150-162).
`osc i` stands for `Math.sin(i / 10)` (a value in `[-1, 1]`; the invariants
below hold for any value). -/
def intradayCandle (currentPrice volume : ℚ) (osc : ℕ → ℚ) (i : ℕ) : Candle :=
  let priceVariation := osc i * 0.01 * currentPrice
  let adjustedPrice := currentPrice + priceVariation
  { copen := toFixed2 (adjustedPrice - 0.1)
    chigh := toFixed2 (adjustedPrice + 0.2)
    clow := toFixed2 (adjustedPrice - 0.2)
    cclose := toFixed2 adjustedPrice
    cvol := ⌊volume / 96⌋ }

/-- The intraday synthetic series (`routes.ts` lines 146-163): 96 buckets,
bucket `i` keyed by `now` minus `i * 5` minutes. -/
def syntheticIntraday (now : ℤ) (currentPrice volume : ℚ) (osc : ℕ → ℚ) :
    List (ℤ × Candle) :=
  (List.range 96).map fun i : ℕ => (now - 5 * (i : ℤ), intradayCandle currentPrice volume osc i)

/-- JS `Date.prototype.getDay` on a day number (days since epoch):
1970-01-01 was a Thursday (day 4). -/
def jsGetDay (d : ℤ) : ℤ := (d + 4) % 7

/-- `date.getDay() === 0 || date.getDay() === 6` (`routes.ts` line 280). -/
def isWeekend (d : ℤ) : Bool := jsGetDay d == 0 || jsGetDay d == 6

/-- One candle of the daily synthetic branch (`routes.ts` lines 282-298).
`rnd i` and `vrnd i` are the two `Math.random()` calls of iteration `i`. -/
def dailyCandle (currentPrice : ℚ) (rnd vrnd : ℕ → ℚ) (i : ℕ) : Candle :=
  let dayFactor : ℚ := 1 - i * 0.002
  let dailyNoise := (rnd i - 0.5) * 0.02
  let adjustedPrice := currentPrice * dayFactor * (1 + dailyNoise)
  { copen := toFixed2 (adjustedPrice * 0.9995)
    chigh := toFixed2 (adjustedPrice * 1.01)
    clow := toFixed2 (adjustedPrice * 0.99)
    cclose := toFixed2 adjustedPrice
    cvol := ⌊(1000000 : ℚ) * (1 + (vrnd i - 0.5) * 0.3)⌋ }

/-- The daily synthetic series (`routes.ts` lines 275-299): 30 calendar days
back from `today` (a day number), weekends skipped. -/
def syntheticDaily (today : ℤ) (currentPrice : ℚ) (rnd vrnd : ℕ → ℚ) :
    List (ℤ × Candle) :=
  (List.range 30).filterMap fun i : ℕ =>
    if isWeekend (today - (i : ℤ)) then none
    else some (today - (i : ℤ), dailyCandle currentPrice rnd vrnd i)

/-- One candle of the weekly synthetic branch (`routes.ts` lines 370-386). -/
def weeklyCandle (currentPrice : ℚ) (rnd vrnd : ℕ → ℚ) (i : ℕ) : Candle :=
  let weekFactor : ℚ := 1 - i * 0.001
  let weeklyNoise := (rnd i - 0.5) * 0.03
  let adjustedPrice := currentPrice * weekFactor * (1 + weeklyNoise)
  { copen := toFixed2 (adjustedPrice * 0.9995)
    chigh := toFixed2 (adjustedPrice * 1.02)
    clow := toFixed2 (adjustedPrice * 0.98)
    cclose := toFixed2 adjustedPrice
    cvol := ⌊(5000000 : ℚ) * (1 + (vrnd i - 0.5) * 0.4)⌋ }

/-- The weekly synthetic series (`routes.ts` lines 366-387): 52 buckets,
bucket `i` keyed by `today` minus `7 * i` days. -/
def syntheticWeekly (today : ℤ) (currentPrice : ℚ) (rnd vrnd : ℕ → ℚ) :
    List (ℤ × Candle) :=
  (List.range 52).map fun i : ℕ => (today - 7 * (i : ℤ), weeklyCandle currentPrice rnd vrnd i)

/-- The Gregorian leap-year rule, as implemented by JS `Date`. -/
def isLeap (y : ℤ) : Bool := (y % 4 == 0 && y % 100 != 0) || y % 400 == 0

/-- Days in month `m` (0-based, January = 0) of year `y`. -/
def daysInMonthOf (y m : ℤ) : ℤ :=
  if m = 1 then (if isLeap y then 29 else 28)
  else if m = 3 ∨ m = 5 ∨ m = 8 ∨ m = 10 then 30
  else 31

/-- Days in the month with absolute month index `t` (`t = year * 12 + month`). -/
def monthLen (t : ℤ) : ℤ := daysInMonthOf (t.ediv 12) (t.emod 12)

/-- The civil date produced by JS `date.setMonth(date.getMonth() - i)` when
the date's day-of-month is `d` and its absolute month index
(`year * 12 + month`) is `m0`, represented as (absolute month index,
day-of-month).  JS keeps `d` and normalizes: if the target month is shorter
than `d`, the date rolls over into the following month (the overflow is at
most `31 - 28 = 3` days, so one roll suffices). -/
def jsMonthSubKey (m0 d : ℤ) (i : ℕ) : ℤ × ℤ :=
  let t := m0 - i
  if d ≤ monthLen t then (t, d) else (t + 1, d - monthLen t)

/-- One candle of the monthly synthetic branch (`routes.ts` lines 457-473). -/
def monthlyCandle (currentPrice : ℚ) (rnd vrnd : ℕ → ℚ) (i : ℕ) : Candle :=
  let monthFactor : ℚ := 1 - i * 0.004
  let monthlyNoise := (rnd i - 0.5) * 0.05
  let adjustedPrice := currentPrice * monthFactor * (1 + monthlyNoise)
  { copen := toFixed2 (adjustedPrice * 0.9995)
    chigh := toFixed2 (adjustedPrice * 1.04)
    clow := toFixed2 (adjustedPrice * 0.96)
    cclose := toFixed2 adjustedPrice
    cvol := ⌊(20000000 : ℚ) * (1 + (vrnd i - 0.5) * 0.5)⌋ }

/-- The monthly synthetic series (`routes.ts` lines 453-474): 60 buckets,
bucket `i` keyed by the date that is `i` JS-months before (`m0`, `d`). -/
def syntheticMonthly (m0 d : ℤ) (currentPrice : ℚ) (rnd vrnd : ℕ → ℚ) :
    List ((ℤ × ℤ) × Candle) :=
  (List.range 60).map fun i => (jsMonthSubKey m0 d i, monthlyCandle currentPrice rnd vrnd i)

/-- The intraday synthetic branch as entered from the route (`routes.ts`
lines 139-163): price falls back to 100, volume to 1000.  The route also
computes `prevClose`/`high`/`low` fallbacks (lines 140-142) but the loop never
reads them. -/
def intradayBranch (q : YahooQuote) (now : ℤ) (osc : ℕ → ℚ) : List (ℤ × Candle) :=
  syntheticIntraday now (jsOrNum q.regularMarketPrice 100)
    (jsOrNum q.regularMarketVolume 1000) osc

/-- The daily synthetic branch as entered from the route (`routes.ts`
lines 270-299): price falls back to 100. -/
def dailyBranch (q : YahooQuote) (today : ℤ) (rnd vrnd : ℕ → ℚ) : List (ℤ × Candle) :=
  syntheticDaily today (jsOrNum q.regularMarketPrice 100) rnd vrnd

/-- The weekly synthetic branch as entered from the route (`routes.ts`
lines 361-387): price falls back to 100. -/
def weeklyBranch (q : YahooQuote) (today : ℤ) (rnd vrnd : ℕ → ℚ) : List (ℤ × Candle) :=
  syntheticWeekly today (jsOrNum q.regularMarketPrice 100) rnd vrnd

/-- The monthly synthetic branch as entered from the route (`routes.ts`
lines 448-474): price falls back to 100. -/
def monthlyBranch (q : YahooQuote) (m0 d : ℤ) (rnd vrnd : ℕ → ℚ) :
    List ((ℤ × ℤ) × Candle) :=
  syntheticMonthly m0 d (jsOrNum q.regularMarketPrice 100) rnd vrnd

/-- A provider historical bar (`yahooFinance.historical`): `bdate` is the
bar's civil date as a day number; all numeric fields may be absent. -/
structure Bar where
  bdate : ℤ
  bopen : Option ℚ
  bhigh : Option ℚ
  blow : Option ℚ
  bclose : Option ℚ
  bvolume : Option ℚ
  deriving DecidableEq

/-- A serialized candle, exactly as placed in the JSON response: the values of
keys `"1. open"` through `"5. volume"`. -/
structure StrCandle where
  sopen : String
  shigh : String
  slow : String
  sclose : String
  svol : String
  deriving DecidableEq

/-- The string produced by JS `x.toFixed(2)`, for the already-rounded
rationals produced by `toFixed2` (denominator dividing 100). -/
def renderFixed2 (x : ℚ) : String :=
  let n : ℤ := round (x * 100)
  let sign := if n < 0 then "-" else ""
  let a := n.natAbs
  let frac := a % 100
  sign ++ toString (a / 100) ++ "." ++ (if frac < 10 then "0" ++ toString frac else toString frac)

/-- Serialization of a synthetic candle (each numeric field went through
`toFixed(2)`, the volume through `toString`). -/
def candleToStrings (c : Candle) : StrCandle :=
  { sopen := renderFixed2 c.copen
    shigh := renderFixed2 c.chigh
    slow := renderFixed2 c.clow
    sclose := renderFixed2 c.cclose
    svol := toString c.cvol }

/-- Normalization of a real provider bar (`routes.ts` lines 258-266):
`bar.open?.toString() || "0"` and so on. -/
def normalizeBar (b : Bar) : StrCandle :=
  { sopen := optNumToString b.bopen
    shigh := optNumToString b.bhigh
    slow := optNumToString b.blow
    sclose := optNumToString b.bclose
    svol := optNumToString b.bvolume }

/-- A series endpoint response: status code, the `"1. Information"` and
`"2. Symbol"` meta fields, the name of the single time-series container, and
its entries (timestamp key, serialized candle). -/
structure SeriesResponse where
  status : ℕ
  metaInformation : String
  metaSymbol : String
  containerKey : String
  entries : List (ℤ × StrCandle)
  deriving DecidableEq

/-- The daily route handler (`routes.ts` lines 231-319).  The two provider
calls are passed as `Except` values: an `.error` in either position means the
corresponding `await` threw, sending control to the `catch` block, which
responds 200 with the empty well-formed shell (`fallbackData`).  `res.json`
leaves the status at its default 200 in every path. -/
def dailyRoute (symbol : String) (quoteRes : Except Unit (Option YahooQuote))
    (histRes : Except Unit (List Bar)) (today : ℤ) (rnd vrnd : ℕ → ℚ) :
    SeriesResponse :=
  match quoteRes, histRes with
  | .ok quote, .ok hist =>
    { status := 200
      metaInformation := "Daily Time Series"
      metaSymbol := symbol
      containerKey := "Time Series (Daily)"
      entries :=
        if hist.length > 0 then hist.map fun b => (b.bdate, normalizeBar b)
        else match quote with
          | some q => (dailyBranch q today rnd vrnd).map fun p => (p.1, candleToStrings p.2)
          | none => [] }
  | _, _ =>
    { status := 200
      metaInformation := "Daily Time Series"
      metaSymbol := symbol
      containerKey := "Time Series (Daily)"
      entries := [] }

/-- The intraday route's expansion of real daily bars into 5-minute points
(`routes.ts` lines 166-205).  `sinPi x` stands for `Math.sin(x * π)`.  Keys
are minutes: `bar.date`'s day number times 1440 plus the in-day minute.  For
hours 9-15 all twelve 5-minute slots are emitted; for hour 16 only `16:00`
survives the market-hours filter. -/
def expandHistorical (hist : List Bar) (sinPi : ℚ → ℚ) : List (ℤ × Candle) :=
  hist.enum.flatMap fun di =>
    (List.range 8).flatMap fun i =>
      let hour := 9 + i
      ((List.range 12).map (· * 5)).filterMap fun minute : ℕ =>
        if hour = 16 ∧ minute > 0 then none
        else
          let bar := di.2
          let dayIndex := di.1
          let progressOfDay : ℚ := ((hour : ℚ) - 9) + (minute : ℚ) / 60
          let dayProgress := progressOfDay / 7
          let patternMultiplier := 1 - sinPi dayProgress * 0.005
          let basePrice := jsOrNum bar.bclose 100
          let adjustedPrice := basePrice * patternMultiplier
          let o := jsOrNum bar.bopen basePrice * (1 - (dayIndex : ℚ) * 0.001)
          let h := jsOrNum bar.bhigh (basePrice * 1.01) * (1 - (dayIndex : ℚ) * 0.001)
          let l := jsOrNum bar.blow (basePrice * 0.99) * (1 - (dayIndex : ℚ) * 0.001)
          some (bar.bdate * 1440 + (hour : ℤ) * 60 + (minute : ℤ),
            { copen := toFixed2 o
              chigh := toFixed2 h
              clow := toFixed2 l
              cclose := toFixed2 adjustedPrice
              cvol := ⌊jsOrNum bar.bvolume 1000 / 96⌋ })

/-- The intraday route handler (`routes.ts` lines 102-228).  The handler
receives `req.query.interval` but never reads it: its fetch interval is
hard-coded to `"1d"` and the container key to the literal
`` `Time Series (5min)` `` (line 129), in both the success and the catch
paths. -/
def intradayRoute (symbol : String) (requestedInterval : Option String)
    (quoteRes : Except Unit (Option YahooQuote)) (histRes : Except Unit (List Bar))
    (now : ℤ) (osc : ℕ → ℚ) (sinPi : ℚ → ℚ) : SeriesResponse :=
  match quoteRes, histRes with
  | .ok quote, .ok hist =>
    { status := 200
      metaInformation := "Intraday Time Series (substitute with daily)"
      metaSymbol := symbol
      containerKey := "Time Series (5min)"
      entries :=
        if hist.length = 0 then
          match quote with
          | some q => (intradayBranch q now osc).map fun p => (p.1, candleToStrings p.2)
          | none => []
        else (expandHistorical hist sinPi).map fun p => (p.1, candleToStrings p.2) }
  | _, _ =>
    { status := 200
      metaInformation := "Intraday Time Series with 5min interval"
      metaSymbol := symbol
      containerKey := "Time Series (5min)"
      entries := [] }

/-- A raw provider news item (`yahooFinance.search(...).news[j]`), with the
fields the route reads; `thumbUrl` stands for
`item.thumbnail?.resolutions?.[0]?.url`. -/
structure RawNewsItem where
  title : Option String
  summary : Option String
  link : Option String
  publisher : Option String
  thumbUrl : Option String
  deriving DecidableEq

/-- A provider search result as consumed by the news route: only its optional
`news` array matters there. -/
structure SearchResult where
  news : Option (List RawNewsItem)
  deriving DecidableEq

/-- A normalized feed item (`routes.ts` lines 600-612 and 623-631).  `banner`
is `none` when the emitted object carries no `banner_image` key (the static
placeholder item omits it); `time_published` (a request-time timestamp) is not
modelled, no claim depends on it. -/
structure FeedItem where
  title : String
  summary : String
  url : String
  banner : Option String
  source : String
  sourceDomain : String
  topics : List (String × String)
  deriving DecidableEq

/-- Normalization of one raw news item for `symbol`
(`routes.ts` lines 600-612). -/
def transformNewsItem (symbol : String) (item : RawNewsItem) : FeedItem :=
  { title := jsOrStr item.title ("Market News for " ++ symbol)
    summary := jsOrStr item.summary "Market updates and financial news"
    url := jsOrStr item.link "https://finance.yahoo.com"
    banner := some (jsOrStr item.thumbUrl "")
    source := jsOrStr item.publisher "Yahoo Finance"
    sourceDomain := "finance.yahoo.com"
    topics := [(symbol, "1.0")] }

/-- The fixed symbol list of the news route (`routes.ts` line 590). -/
def newsSymbols : List String := ["AAPL", "MSFT", "GOOGL", "AMZN", "META"]

/-- JS `Promise.all` over already-determined outcomes: if every promise
fulfills, the list of values in order; if any rejects, the whole combination
rejects (the source awaits it inside `try`, so a single rejection reaches the
`catch` block).  Which rejection reason is reported is irrelevant here since
the route ignores it. -/
def promiseAll {α : Type} : List (Except Unit α) → Except Unit (List α)
  | [] => .ok []
  | .error e :: _ => .error e
  | .ok a :: rest => (promiseAll rest).map (a :: ·)

/-- The static placeholder feed of the news route's catch block
(`routes.ts` lines 621-633). -/
def defaultNews : List FeedItem :=
  [{ title := "Markets Today: Wizarding Finance Update"
     summary := "The market is experiencing changes as various magical companies adjust to the new economic climate."
     url := "https://finance.yahoo.com"
     banner := none
     source := "Magic Financial Times"
     sourceDomain := "finance.yahoo.com"
     topics := [("Markets", "1.0")] }]

/-- The news route handler (`routes.ts` lines 587-637), returning the `feed`
array.  `fetchSearch s` is the outcome of `yahooFinance.search(s)`.  On the
success path each symbol's `(result.news || [])` is truncated to two items and
normalized; `flatMap` pairs `newsResults[index]` with `symbols[index]`,
modelled by zipping with `newsSymbols`. -/
def newsRoute (fetchSearch : String → Except Unit SearchResult) : List FeedItem :=
  match promiseAll (newsSymbols.map fetchSearch) with
  | .ok results =>
    (results.zip newsSymbols).flatMap fun rs =>
      ((rs.1.news.getD []).take 2).map (transformNewsItem rs.2)
  | .error _ => defaultNews

/-- The OHLC ordering invariant for a candle:
`low ≤ min(open, close)` and `max(open, close) ≤ high`. -/
def candleOrdered (c : Candle) : Prop :=
  c.clow ≤ min c.copen c.cclose ∧ max c.copen c.cclose ≤ c.chigh

/-- A provider quote with every optional field absent (used to evaluate the
universally quantified theorems at a concrete input). -/
def emptyQuote : YahooQuote :=
  { symbol := "TEST"
    regularMarketOpen := none
    regularMarketDayHigh := none
    regularMarketDayLow := none
    regularMarketPrice := none
    regularMarketVolume := none
    regularMarketPreviousClose := none
    regularMarketChange := none
    regularMarketChangePercent := none }

/-- The quote of the spec's scenario: `regularMarketPrice = 150`,
`regularMarketPreviousClose = 148`, no other change-related fields. -/
def scenarioQuote : YahooQuote :=
  { symbol := "AAPL"
    regularMarketOpen := none
    regularMarketDayHigh := none
    regularMarketDayLow := none
    regularMarketPrice := some 150
    regularMarketVolume := none
    regularMarketPreviousClose := some 148
    regularMarketChange := none
    regularMarketChangePercent := none }

/-- A concrete news item returned by a succeeding search subrequest. -/
def sampleNewsItem : RawNewsItem :=
  { title := some "Tech rally continues"
    summary := none
    link := none
    publisher := none
    thumbUrl := none }

/-- A concrete fetch outcome in which exactly one of the five news
subrequests (the one for `MSFT`) fails and the others succeed with one item
each. -/
def oneFailureFetch : String → Except Unit SearchResult := fun s =>
  if s = "MSFT" then .error () else .ok { news := some [sampleNewsItem] }

section Lemmas

/-- Rounding to two decimal places is monotone (JS `toFixed(2)` rounds the
double to the nearest hundredth, also monotonically). -/
lemma toFixed2_mono {x y : ℚ} (h : x ≤ y) : toFixed2 x ≤ toFixed2 y := by
  unfold toFixed2
  have h1 : round (x * 100) ≤ round (y * 100) := by
    rw [round_eq, round_eq]
    exact Int.floor_le_floor (by linarith)
  have h2 : ((round (x * 100) : ℤ) : ℚ) ≤ ((round (y * 100) : ℤ) : ℚ) := by
    exact_mod_cast h1
  linarith

/-- Ordering of a candle built from fixed absolute offsets around a price
(the intraday synthetic shape). -/
lemma absBand_ordered (a : ℚ) :
    toFixed2 (a - 0.2) ≤ min (toFixed2 (a - 0.1)) (toFixed2 a) ∧
    max (toFixed2 (a - 0.1)) (toFixed2 a) ≤ toFixed2 (a + 0.2) :=
  ⟨le_min (toFixed2_mono (by linarith)) (toFixed2_mono (by linarith)),
    max_le (toFixed2_mono (by linarith)) (toFixed2_mono (by linarith))⟩

/-- Ordering of a candle built from multiplicative bands around a nonnegative
price (the daily/weekly/monthly synthetic shape): low factor below `0.9995`,
high factor at least `1`. -/
lemma mulBand_ordered {a lo hi : ℚ} (ha : 0 ≤ a) (hlo : lo ≤ 0.9995) (hhi : 1 ≤ hi) :
    toFixed2 (a * lo) ≤ min (toFixed2 (a * 0.9995)) (toFixed2 a) ∧
    max (toFixed2 (a * 0.9995)) (toFixed2 a) ≤ toFixed2 (a * hi) :=
  ⟨le_min (toFixed2_mono (by nlinarith)) (toFixed2_mono (by nlinarith)),
    max_le (toFixed2_mono (by nlinarith)) (toFixed2_mono (by nlinarith))⟩

lemma intradayCandle_ordered (p vol : ℚ) (osc : ℕ → ℚ) (i : ℕ) :
    candleOrdered (intradayCandle p vol osc i) :=
  absBand_ordered (p + osc i * 0.01 * p)

lemma dailyCandle_ordered (p : ℚ) (rnd vrnd : ℕ → ℚ) (i : ℕ) (hp : 0 < p)
    (hr0 : 0 ≤ rnd i) (hr1 : rnd i < 1) (hi : i < 30) :
    candleOrdered (dailyCandle p rnd vrnd i) := by
  have hiq : (i : ℚ) ≤ 29 := by exact_mod_cast Nat.lt_succ_iff.mp hi
  have h1 : (0 : ℚ) ≤ 1 - (i : ℚ) * 0.002 := by linarith
  have h2 : (0 : ℚ) ≤ 1 + (rnd i - 0.5) * 0.02 := by linarith
  have ha : 0 ≤ p * (1 - (i : ℚ) * 0.002) * (1 + (rnd i - 0.5) * 0.02) :=
    mul_nonneg (mul_nonneg hp.le h1) h2
  exact @mulBand_ordered (p * (1 - (i : ℚ) * 0.002) * (1 + (rnd i - 0.5) * 0.02))
    0.99 1.01 ha (by norm_num) (by norm_num)

lemma weeklyCandle_ordered (p : ℚ) (rnd vrnd : ℕ → ℚ) (i : ℕ) (hp : 0 < p)
    (hr0 : 0 ≤ rnd i) (hr1 : rnd i < 1) (hi : i < 52) :
    candleOrdered (weeklyCandle p rnd vrnd i) := by
  have hiq : (i : ℚ) ≤ 51 := by exact_mod_cast Nat.lt_succ_iff.mp hi
  have h1 : (0 : ℚ) ≤ 1 - (i : ℚ) * 0.001 := by linarith
  have h2 : (0 : ℚ) ≤ 1 + (rnd i - 0.5) * 0.03 := by linarith
  have ha : 0 ≤ p * (1 - (i : ℚ) * 0.001) * (1 + (rnd i - 0.5) * 0.03) :=
    mul_nonneg (mul_nonneg hp.le h1) h2
  exact @mulBand_ordered (p * (1 - (i : ℚ) * 0.001) * (1 + (rnd i - 0.5) * 0.03))
    0.98 1.02 ha (by norm_num) (by norm_num)

lemma monthlyCandle_ordered (p : ℚ) (rnd vrnd : ℕ → ℚ) (i : ℕ) (hp : 0 < p)
    (hr0 : 0 ≤ rnd i) (hr1 : rnd i < 1) (hi : i < 60) :
    candleOrdered (monthlyCandle p rnd vrnd i) := by
  have hiq : (i : ℚ) ≤ 59 := by exact_mod_cast Nat.lt_succ_iff.mp hi
  have h1 : (0 : ℚ) ≤ 1 - (i : ℚ) * 0.004 := by linarith
  have h2 : (0 : ℚ) ≤ 1 + (rnd i - 0.5) * 0.05 := by linarith
  have ha : 0 ≤ p * (1 - (i : ℚ) * 0.004) * (1 + (rnd i - 0.5) * 0.05) :=
    mul_nonneg (mul_nonneg hp.le h1) h2
  exact @mulBand_ordered (p * (1 - (i : ℚ) * 0.004) * (1 + (rnd i - 0.5) * 0.05))
    0.96 1.04 ha (by norm_num) (by norm_num)

/-- A `filterMap` whose function skips on a test and otherwise maps is a
`filter` followed by a `map`. -/
lemma filterMap_if_skip {α β : Type} (c : α → Bool) (g : α → β) (l : List α) :
    (l.filterMap fun a => if c a then none else some (g a)) =
      (l.filter fun a => !c a).map g := by
  induction l with
  | nil => rfl
  | cons x xs ih =>
    by_cases h : c x <;> simp [List.filterMap_cons, List.filter_cons, h, ih]

/-- The daily synthetic series, rewritten as a filter of the day offsets
followed by candle construction. -/
lemma syntheticDaily_eq (today : ℤ) (p : ℚ) (rnd vrnd : ℕ → ℚ) :
    syntheticDaily today p rnd vrnd =
      ((List.range 30).filter fun i : ℕ => !isWeekend (today - (i : ℤ))).map
        (fun i : ℕ => (today - (i : ℤ), dailyCandle p rnd vrnd i)) :=
  filterMap_if_skip (fun i : ℕ => isWeekend (today - (i : ℤ)))
    (fun i : ℕ => (today - (i : ℤ), dailyCandle p rnd vrnd i)) (List.range 30)

/-- Every month has at least 28 days. -/
lemma monthLen_ge (t : ℤ) : 28 ≤ monthLen t := by
  unfold monthLen daysInMonthOf
  split
  · split <;> norm_num
  · split <;> norm_num

/-- Subtracting distinct month counts from the same JS date yields distinct
civil dates: a rolled-over date lands in the month after its target with a
positive shortfall, so it can never coincide with a non-rolled date or with a
roll from a different target month. -/
lemma jsMonthSubKey_inj (m0 d : ℤ) : Function.Injective (jsMonthSubKey m0 d) := by
  intro i j h
  have h28i : 28 ≤ monthLen (m0 - (i : ℤ)) := monthLen_ge _
  have h28j : 28 ≤ monthLen (m0 - (j : ℤ)) := monthLen_ge _
  unfold jsMonthSubKey at h
  dsimp only at h
  split at h <;> split at h <;> injection h with h1 h2 <;> omega

/-- The change-percent fallback: an absent `regularMarketChangePercent`
contributes `0`, and scaling by 100 keeps it `0`. -/
lemma jsOrNum_none_mul_100 : jsOrNum none 0 * 100 = (0 : ℚ) := by
  simp [jsOrNum]

/-- `Promise.all` rejects as soon as any of the joined promises rejects. -/
lemma promiseAll_isError {α : Type} (l : List (Except Unit α)) (x : Except Unit α)
    (hx : x ∈ l) (he : x = .error ()) : promiseAll l = .error () := by
  induction l with
  | nil => cases hx
  | cons y ys ih =>
    rcases List.mem_cons.mp hx with rfl | hmem
    · subst he; rfl
    · cases y with
      | error e => cases e; rfl
      | ok a => simp [promiseAll, ih hmem, Except.map]

end Lemmas

/-- C1: every candle produced by a synthetic-generation branch of the series
endpoints (intraday, daily, weekly, monthly) satisfies
`low ≤ min(open, close)` and `max(open, close) ≤ high`, given a positive base
price and noise values in `Math.random()`'s range `[0, 1)` (the intraday
branch needs neither hypothesis, its offsets being absolute). -/
theorem c1_synthetic_candles_ordered (now today m0 d : ℤ) (p volq : ℚ)
    (osc rnd vrnd : ℕ → ℚ) (hp : 0 < p) (hr : ∀ i, 0 ≤ rnd i ∧ rnd i < 1) :
    (∀ e ∈ syntheticIntraday now p volq osc, candleOrdered e.2) ∧
    (∀ e ∈ syntheticDaily today p rnd vrnd, candleOrdered e.2) ∧
    (∀ e ∈ syntheticWeekly today p rnd vrnd, candleOrdered e.2) ∧
    (∀ e ∈ syntheticMonthly m0 d p rnd vrnd, candleOrdered e.2) := by
  refine ⟨?_, ?_, ?_, ?_⟩
  · intro e he
    simp only [syntheticIntraday, List.mem_map, List.mem_range] at he
    obtain ⟨i, _, rfl⟩ := he
    exact intradayCandle_ordered p volq osc i
  · intro e he
    rw [syntheticDaily_eq] at he
    simp only [List.mem_map, List.mem_filter, List.mem_range] at he
    obtain ⟨i, ⟨hi, -⟩, rfl⟩ := he
    exact dailyCandle_ordered p rnd vrnd i hp (hr i).1 (hr i).2 hi
  · intro e he
    simp only [syntheticWeekly, List.mem_map, List.mem_range] at he
    obtain ⟨i, hi, rfl⟩ := he
    exact weeklyCandle_ordered p rnd vrnd i hp (hr i).1 (hr i).2 hi
  · intro e he
    simp only [syntheticMonthly, List.mem_map, List.mem_range] at he
    obtain ⟨i, hi, rfl⟩ := he
    exact monthlyCandle_ordered p rnd vrnd i hp (hr i).1 (hr i).2 hi

/-- Witness for C1 at a concrete input: price 100, all noise draws 1/2. -/
theorem c1_synthetic_candles_ordered_witness :
    (0 : ℚ) < 100 ∧ (∀ i : ℕ, 0 ≤ (1 : ℚ) / 2 ∧ (1 : ℚ) / 2 < 1) ∧
    (∀ e ∈ syntheticDaily 0 100 (fun _ => 1 / 2) (fun _ => 1 / 2), candleOrdered e.2) :=
  ⟨by norm_num, fun _ => ⟨by norm_num, by norm_num⟩,
    (c1_synthetic_candles_ordered 0 0 0 1 100 1000 (fun _ => 0) (fun _ => 1 / 2)
      (fun _ => 1 / 2) (by norm_num) (fun _ => ⟨by norm_num, by norm_num⟩)).2.1⟩

/-- C2 (code evaluated at the failing input): the intraday route answers a
request with `interval=60min` using the container key `"Time Series (5min)"`;
the client built from the same repository looks that response up under
`"Time Series (60min)"`, which differs. -/
theorem c2_intraday_interval_ignored :
    (intradayRoute "AAPL" (some "60min") (.ok (some emptyQuote)) (.ok []) 0
        (fun _ => 0) (fun _ => 0)).containerKey = "Time Series (5min)" ∧
    clientSeriesKey "intraday" "60min" = "Time Series (60min)" ∧
    ("Time Series (5min)" : String) ≠ "Time Series (60min)" :=
  ⟨rfl, rfl, by decide⟩

/-- C3 counterexample: for the scenario quote (price 150, previous close 148,
no provider-computed change fields) the normalized `"09. change"` is `"0"`,
not `"2"`: the route copies `regularMarketChange` and never derives the change
from price and previous close. -/
theorem c3_change_not_derived_counterexample :
    (transformQuote scenarioQuote "2026-10-12").gchange = "0" ∧
    ("0" : String) ≠ "2" :=
  ⟨rfl, by decide⟩

/-- C3 amended: for the scenario quote, `"09. change"` is the absent
`regularMarketChange` field's fallback `"0"`, and `"10. change percent"` is
the absent `regularMarketChangePercent` field's fallback `0` scaled by 100 and
suffixed with `%`, i.e. `"0%"`; neither is derived from price and previous
close. -/
theorem c3_change_fallback_amended (today : String) :
    (transformQuote scenarioQuote today).gchange = "0" ∧
    (transformQuote scenarioQuote today).gchangePercent = "0%" :=
  ⟨rfl, by
    show jsNumToString (jsOrNum none 0 * 100) ++ "%" = "0%"
    rw [jsOrNum_none_mul_100]
    rfl⟩

/-- C4: the synthetic series have the described lengths — the intraday series
has 96 pairwise-distinct keys, the daily series has exactly one entry per
non-weekend day among the last 30 calendar days, the weekly series has 52
pairwise-distinct keys, and the monthly series has 60 pairwise-distinct
keys. -/
theorem c4_synthetic_series_lengths (now today m0 d : ℤ) (p volq : ℚ)
    (osc rnd vrnd : ℕ → ℚ) :
    ((syntheticIntraday now p volq osc).length = 96 ∧
      ((syntheticIntraday now p volq osc).map Prod.fst).Nodup) ∧
    ((syntheticDaily today p rnd vrnd).map Prod.fst =
        ((List.range 30).filter fun i : ℕ => !isWeekend (today - (i : ℤ))).map
          (fun i : ℕ => today - (i : ℤ)) ∧
      ((syntheticDaily today p rnd vrnd).map Prod.fst).Nodup) ∧
    ((syntheticWeekly today p rnd vrnd).length = 52 ∧
      ((syntheticWeekly today p rnd vrnd).map Prod.fst).Nodup) ∧
    ((syntheticMonthly m0 d p rnd vrnd).length = 60 ∧
      ((syntheticMonthly m0 d p rnd vrnd).map Prod.fst).Nodup) := by
  have hinj5 : Function.Injective (fun i : ℕ => now - 5 * (i : ℤ)) := by
    intro a b hab
    have h' : now - 5 * (a : ℤ) = now - 5 * (b : ℤ) := hab
    omega
  have hinj1 : Function.Injective (fun i : ℕ => today - (i : ℤ)) := by
    intro a b hab
    have h' : today - (a : ℤ) = today - (b : ℤ) := hab
    omega
  have hinj7 : Function.Injective (fun i : ℕ => today - 7 * (i : ℤ)) := by
    intro a b hab
    have h' : today - 7 * (a : ℤ) = today - 7 * (b : ℤ) := hab
    omega
  refine ⟨⟨?_, ?_⟩, ⟨?_, ?_⟩, ⟨?_, ?_⟩, ⟨?_, ?_⟩⟩
  · simp [syntheticIntraday]
  · have h : (syntheticIntraday now p volq osc).map Prod.fst =
        (List.range 96).map fun i : ℕ => now - 5 * (i : ℤ) := by
      simp [syntheticIntraday]
    rw [h]
    exact (List.nodup_range _).map hinj5
  · rw [syntheticDaily_eq]
    simp
  · rw [syntheticDaily_eq]
    have h : (((List.range 30).filter fun i : ℕ => !isWeekend (today - (i : ℤ))).map
          (fun i : ℕ => (today - (i : ℤ), dailyCandle p rnd vrnd i))).map Prod.fst =
        ((List.range 30).filter fun i : ℕ => !isWeekend (today - (i : ℤ))).map
          (fun i : ℕ => today - (i : ℤ)) := by
      simp
    rw [h]
    exact ((List.nodup_range _).filter _).map hinj1
  · simp [syntheticWeekly]
  · have h : (syntheticWeekly today p rnd vrnd).map Prod.fst =
        (List.range 52).map fun i : ℕ => today - 7 * (i : ℤ) := by
      simp [syntheticWeekly]
    rw [h]
    exact (List.nodup_range _).map hinj7
  · simp [syntheticMonthly]
  · have h : (syntheticMonthly m0 d p rnd vrnd).map Prod.fst =
        (List.range 60).map (jsMonthSubKey m0 d) := by
      simp [syntheticMonthly]
    rw [h]
    exact (List.nodup_range _).map (jsMonthSubKey_inj m0 d)

/-- C5 counterexample: with four of the five news subrequests succeeding (each
carrying one item) and the `MSFT` subrequest failing, the response is the
static placeholder feed — the successful symbols' items are discarded, so a
single failure does fail the whole batch. -/
theorem c5_partial_failure_counterexample :
    newsRoute oneFailureFetch = defaultNews ∧
    ∀ item ∈ newsRoute oneFailureFetch, item.title ≠ "Tech rally continues" := by
  refine ⟨rfl, ?_⟩
  decide

/-- C5 amended: the route joins the five subrequests with `Promise.all`, so if
at least one subrequest fails the whole batch fails over to the static
single-item placeholder feed; successful symbols contribute nothing. -/
theorem c5_any_failure_placeholder (fetchSearch : String → Except Unit SearchResult)
    (h : ∃ s ∈ newsSymbols, fetchSearch s = .error ()) :
    newsRoute fetchSearch = defaultNews := by
  obtain ⟨s, hs, herr⟩ := h
  have hall : promiseAll (newsSymbols.map fetchSearch) = .error () :=
    promiseAll_isError (newsSymbols.map fetchSearch) (fetchSearch s)
      (List.mem_map_of_mem fetchSearch hs) herr
  simp [newsRoute, hall]

/-- Witness for the amended C5 at the concrete one-failure input. -/
theorem c5_any_failure_placeholder_witness :
    (∃ s ∈ newsSymbols, oneFailureFetch s = .error ()) ∧
    newsRoute oneFailureFetch = defaultNews :=
  ⟨⟨"MSFT", by decide, rfl⟩,
    c5_any_failure_placeholder oneFailureFetch ⟨"MSFT", by decide, rfl⟩⟩

/-- C6: if every news subrequest fails, the response is the static placeholder
feed with exactly one item — never an empty array. -/
theorem c6_all_failures_single_placeholder
    (fetchSearch : String → Except Unit SearchResult)
    (h : ∀ s ∈ newsSymbols, fetchSearch s = .error ()) :
    newsRoute fetchSearch = defaultNews ∧
    (newsRoute fetchSearch).length = 1 ∧ newsRoute fetchSearch ≠ [] := by
  have hall : promiseAll (newsSymbols.map fetchSearch) = .error () :=
    promiseAll_isError (newsSymbols.map fetchSearch) (fetchSearch "AAPL")
      (List.mem_map_of_mem fetchSearch (by simp [newsSymbols]))
      (h "AAPL" (by simp [newsSymbols]))
  refine ⟨by simp [newsRoute, hall], ?_, ?_⟩ <;> simp [newsRoute, hall, defaultNews]

/-- Witness for C6: all five subrequests fail. -/
theorem c6_all_failures_single_placeholder_witness :
    (∀ s ∈ newsSymbols, (fun _ : String => (.error () : Except Unit SearchResult)) s
      = .error ()) ∧
    newsRoute (fun _ => .error ()) = defaultNews ∧
    (newsRoute (fun _ => .error ())).length = 1 :=
  ⟨fun _ _ => rfl,
    (c6_all_failures_single_placeholder (fun _ => .error ()) (fun _ _ => rfl)).1,
    (c6_all_failures_single_placeholder (fun _ => .error ()) (fun _ _ => rfl)).2.1⟩

/-- C7: if the provider call underlying `/api/stocks/daily/:symbol` throws
(either the quote fetch or the historical fetch), the route still responds
with status 200 and a well-formed body whose `"Time Series (Daily)"` mapping
is empty. -/
theorem c7_daily_transport_failure_empty_200 (symbol : String)
    (quoteRes : Except Unit (Option YahooQuote)) (histRes : Except Unit (List Bar))
    (today : ℤ) (rnd vrnd : ℕ → ℚ)
    (h : quoteRes = .error () ∨ histRes = .error ()) :
    (dailyRoute symbol quoteRes histRes today rnd vrnd).status = 200 ∧
    (dailyRoute symbol quoteRes histRes today rnd vrnd).containerKey =
      "Time Series (Daily)" ∧
    (dailyRoute symbol quoteRes histRes today rnd vrnd).entries = [] := by
  rcases h with h | h
  · subst h; cases histRes <;> exact ⟨rfl, rfl, rfl⟩
  · subst h; cases quoteRes <;> exact ⟨rfl, rfl, rfl⟩

/-- Witness for C7: the quote fetch throws. -/
theorem c7_daily_transport_failure_empty_200_witness :
    ((.error () : Except Unit (Option YahooQuote)) = .error () ∨
      (.ok [] : Except Unit (List Bar)) = .error ()) ∧
    (dailyRoute "AAPL" (.error ()) (.ok []) 0 (fun _ => 0) (fun _ => 0)).status = 200 ∧
    (dailyRoute "AAPL" (.error ()) (.ok []) 0 (fun _ => 0) (fun _ => 0)).entries = [] :=
  ⟨Or.inl rfl,
    (c7_daily_transport_failure_empty_200 "AAPL" (.error ()) (.ok []) 0
      (fun _ => 0) (fun _ => 0) (Or.inl rfl)).1,
    (c7_daily_transport_failure_empty_200 "AAPL" (.error ()) (.ok []) 0
      (fun _ => 0) (fun _ => 0) (Or.inl rfl)).2.2⟩

/-- C8: every numeric field of the normalized Global Quote falls back to the
literal string `"0"` when the corresponding provider field is absent, and the
change percent falls back to `0` before scaling, yielding `"0%"`. -/
theorem c8_absent_fields_zero (q : YahooQuote) (today : String) :
    (q.regularMarketOpen = none → (transformQuote q today).gopen = "0") ∧
    (q.regularMarketDayHigh = none → (transformQuote q today).ghigh = "0") ∧
    (q.regularMarketDayLow = none → (transformQuote q today).glow = "0") ∧
    (q.regularMarketPrice = none → (transformQuote q today).gprice = "0") ∧
    (q.regularMarketVolume = none → (transformQuote q today).gvolume = "0") ∧
    (q.regularMarketPreviousClose = none → (transformQuote q today).gprevClose = "0") ∧
    (q.regularMarketChange = none → (transformQuote q today).gchange = "0") ∧
    (q.regularMarketChangePercent = none →
      (transformQuote q today).gchangePercent = "0%") := by
  refine ⟨?_, ?_, ?_, ?_, ?_, ?_, ?_, ?_⟩ <;> intro h <;>
    simp only [transformQuote] <;> rw [h] <;>
    first
    | rfl
    | (rw [jsOrNum_none_mul_100]; rfl)

/-- Witness for C8 at a quote with every field absent. -/
theorem c8_absent_fields_zero_witness :
    emptyQuote.regularMarketOpen = none ∧
    (transformQuote emptyQuote "2026-10-12").gopen = "0" ∧
    (transformQuote emptyQuote "2026-10-12").ghigh = "0" ∧
    (transformQuote emptyQuote "2026-10-12").glow = "0" ∧
    (transformQuote emptyQuote "2026-10-12").gprice = "0" ∧
    (transformQuote emptyQuote "2026-10-12").gvolume = "0" ∧
    (transformQuote emptyQuote "2026-10-12").gprevClose = "0" ∧
    (transformQuote emptyQuote "2026-10-12").gchange = "0" ∧
    (transformQuote emptyQuote "2026-10-12").gchangePercent = "0%" :=
  ⟨rfl, (c8_absent_fields_zero emptyQuote "2026-10-12").1 rfl,
    (c8_absent_fields_zero emptyQuote "2026-10-12").2.1 rfl,
    (c8_absent_fields_zero emptyQuote "2026-10-12").2.2.1 rfl,
    (c8_absent_fields_zero emptyQuote "2026-10-12").2.2.2.1 rfl,
    (c8_absent_fields_zero emptyQuote "2026-10-12").2.2.2.2.1 rfl,
    (c8_absent_fields_zero emptyQuote "2026-10-12").2.2.2.2.2.1 rfl,
    (c8_absent_fields_zero emptyQuote "2026-10-12").2.2.2.2.2.2.1 rfl,
    (c8_absent_fields_zero emptyQuote "2026-10-12").2.2.2.2.2.2.2 rfl⟩

/-- C9: the timeframe-to-granularity mapping returns exactly the table-defined
endpoint/interval pair for each of the seven timeframes, and any other value
returns 1D's pair. -/
theorem c9_timeframe_granularity_table (tf : String)
    (h : tf ∉ (["1D", "1W", "1M", "3M", "1Y", "5Y", "Max"] : List String)) :
    getEndpointAndInterval "1D" = ("intraday", "5min") ∧
    getEndpointAndInterval "1W" = ("intraday", "60min") ∧
    getEndpointAndInterval "1M" = ("daily", "") ∧
    getEndpointAndInterval "3M" = ("daily", "") ∧
    getEndpointAndInterval "1Y" = ("weekly", "") ∧
    getEndpointAndInterval "5Y" = ("weekly", "") ∧
    getEndpointAndInterval "Max" = ("monthly", "") ∧
    getEndpointAndInterval tf = ("intraday", "5min") := by
  simp only [List.mem_cons, List.not_mem_nil, or_false, not_or] at h
  obtain ⟨h1, h2, h3, h4, h5, h6, h7⟩ := h
  exact ⟨rfl, rfl, rfl, rfl, rfl, rfl, rfl, by
    simp [getEndpointAndInterval, h1, h2, h3, h4, h5, h6, h7]⟩

/-- Witness for C9 at the unlisted timeframe `"2D"`. -/
theorem c9_timeframe_granularity_table_witness :
    ("2D" : String) ∉ (["1D", "1W", "1M", "3M", "1Y", "5Y", "Max"] : List String) ∧
    getEndpointAndInterval "2D" = ("intraday", "5min") :=
  ⟨by decide,
    (c9_timeframe_granularity_table "2D" (by decide)).2.2.2.2.2.2.2⟩

/-- C10 (implicit): when the quote exists but `regularMarketPrice` is absent,
each synthetic branch generates its series from a base price of exactly
100. -/
theorem c10_missing_price_base_100 (q : YahooQuote)
    (hq : q.regularMarketPrice = none) (now today m0 d : ℤ) (osc rnd vrnd : ℕ → ℚ) :
    intradayBranch q now osc =
      syntheticIntraday now 100 (jsOrNum q.regularMarketVolume 1000) osc ∧
    dailyBranch q today rnd vrnd = syntheticDaily today 100 rnd vrnd ∧
    weeklyBranch q today rnd vrnd = syntheticWeekly today 100 rnd vrnd ∧
    monthlyBranch q m0 d rnd vrnd = syntheticMonthly m0 d 100 rnd vrnd := by
  refine ⟨?_, ?_, ?_, ?_⟩ <;>
    simp [intradayBranch, dailyBranch, weeklyBranch, monthlyBranch, jsOrNum, hq]

/-- Witness for C10 at a quote with no price. -/
theorem c10_missing_price_base_100_witness :
    emptyQuote.regularMarketPrice = none ∧
    dailyBranch emptyQuote 0 (fun _ => 0) (fun _ => 0) =
      syntheticDaily 0 100 (fun _ => 0) (fun _ => 0) :=
  ⟨rfl, (c10_missing_price_base_100 emptyQuote rfl 0 0 0 1 (fun _ => 0)
    (fun _ => 0) (fun _ => 0)).2.1⟩

end Gringotts
